import Mathlib

/-!
Verification of the `spill` crate (a unidirectional Bitcoin payment channel,
"Spillman channel") against its specification.

The development shallowly embeds the channel core:
- machine amounts (`bitcoin::Amount`, a u64 whose arithmetic panics rather
  than wraps on overflow) are modelled as `Nat`;
- external Bitcoin/crypto primitives (txid hashing, script-hash and address
  derivation, the funding-script byte encoding, segwit sighash computation,
  ECDSA verification, DER serialization) are an injected capability,
  the `Primitives` structure, mirroring the spec's design note that the
  cryptographic/encoding capability is an abstract injected interface;
- `&mut self` methods become explicit state passing;
- Rust `Result` plus the possibility of a panic (out-of-bounds indexing)
  becomes the three-valued `RustResult`.

Two embeddings are given: namespace `Spill` follows `src/channel/*.rs`
(the module version with grouped errors), namespace `Flat` follows the
historical flat snapshot in `src/lib.rs`.
-/

namespace Spill

/-- Satoshi amounts. `bitcoin::Amount` wraps a u64 and its arithmetic panics
on overflow (it never wraps), so `Nat` is a faithful model on all
non-panicking executions. -/
abbrev Amount := Nat

/-- A script, as its byte encoding (`ScriptBuf`). -/
abbrev Script := List Nat

/-- `bitcoin::PublicKey`: an abstract secp256k1 point (`inner`) plus the
compressed-encoding flag. Equality compares both fields, as in the source. -/
structure PubKey where
  inner : Nat
  compressed : Bool
deriving DecidableEq, Repr

/-- `Sequence::ZERO` (raw u32 value 0). -/
def sequenceZero : Nat := 0

/-- `Sequence::MAX` (raw u32 value 0xFFFFFFFF). -/
def sequenceMax : Nat := 0xFFFFFFFF

/-- `Sequence::from_height(h: u16)`: the raw u32 is just the height. -/
def sequenceFromHeight (h : Nat) : Nat := h % 2 ^ 16

/-- `Sequence::from_512_second_intervals(i: u16)`: sets the lock-type flag
bit 22 (0x400000) and the interval count in the low 16 bits. -/
def sequenceFrom512SecondIntervals (i : Nat) : Nat := 0x400000 ||| (i % 2 ^ 16)

/-- `bitcoin::OutPoint`: a transaction id (abstract hash value) and an
output index. -/
structure OutPoint where
  txid : Nat
  vout : Nat
deriving DecidableEq, Repr

/-- `bitcoin::TxOut`. -/
structure TxOut where
  value : Amount
  script_pubkey : Script
deriving DecidableEq, Repr

/-- `bitcoin::TxIn`. The sequence field is the raw u32. -/
structure TxIn where
  previous_output : OutPoint
  script_sig : Script
  sequence : Nat
  witness : List (List Nat)
deriving DecidableEq, Repr

/-- `bitcoin::Transaction`. `lock_time` is the raw consensus u32 of the
absolute locktime (`LockTime::ZERO` is 0; the raw-u32 encoding is in
bijection with the structural `Blocks`/`Seconds` enum, so raw equality
agrees with the structural equality used by the source). -/
structure Transaction where
  version : Int
  lock_time : Nat
  input : List TxIn
  output : List TxOut
deriving DecidableEq, Repr

/-- `EcdsaSighashType`. -/
inductive SighashType where
  | all
  | noneTy
  | single
  | allPlusAnyoneCanPay
  | nonePlusAnyoneCanPay
  | singlePlusAnyoneCanPay
deriving DecidableEq, Repr

/-- `EcdsaSighashType::to_u32`. -/
def SighashType.toU32 : SighashType → Nat
  | .all => 0x01
  | .noneTy => 0x02
  | .single => 0x03
  | .allPlusAnyoneCanPay => 0x81
  | .nonePlusAnyoneCanPay => 0x82
  | .singlePlusAnyoneCanPay => 0x83

/-- `bitcoin::ecdsa::Signature`: an abstract ECDSA signature value plus the
declared sighash type. -/
structure EcdsaSig where
  signature : Nat
  sighash_type : SighashType
deriving DecidableEq, Repr

/-- A PSBT input map (the fields of `psbt::Input` the source reads or
writes). `psigs` models the `partial_sigs` BTreeMap as an association
list looked up by key equality. -/
structure PsbtInput where
  witness_utxo : Option TxOut
  witness_script : Option Script
  psigs : List (PubKey × EcdsaSig)
  final_script_witness : Option (List (List Nat))
deriving DecidableEq, Repr

/-- Default (empty) PSBT input map, as created by `Psbt::from_unsigned_tx`. -/
def PsbtInput.empt : PsbtInput :=
  { witness_utxo := none, witness_script := none, psigs := [], final_script_witness := none }

/-- A PSBT output map (only `witness_script` is used by the source). -/
structure PsbtOutput where
  witness_script : Option Script
deriving DecidableEq, Repr

/-- `bitcoin::Psbt` (the fields the source uses). -/
structure Psbt where
  unsigned_tx : Transaction
  inputs : List PsbtInput
  outputs : List PsbtOutput
deriving DecidableEq, Repr

/-- `Psbt::from_unsigned_tx`: one empty input/output map per transaction
input/output. (The source's `.expect` guards the transaction being
unsigned — all three call sites construct inputs with empty `script_sig`
and witness, so the check never fires and is omitted here.) -/
def Psbt.fromUnsignedTx (tx : Transaction) : Psbt :=
  { unsigned_tx := tx
    inputs := tx.input.map fun _ => PsbtInput.empt
    outputs := tx.output.map fun _ => ({ witness_script := none } : PsbtOutput) }

/-- The injected Bitcoin/crypto capability: every primitive of the
`bitcoin` crate the channel core calls. The development is parametric in
this structure; theorems hold for every implementation of it. -/
structure Primitives where
  /-- `Transaction::compute_txid`. -/
  computeTxid : Transaction → Nat
  /-- hash160 of a public key's serialization (the hash inside
  `PublicKey::wpubkey_hash`; that method additionally fails on
  uncompressed keys, see `wpubkeyHash`). -/
  pubkeyHash : PubKey → Nat
  /-- `Script::wscript_hash` (sha256 of the script bytes). -/
  wscriptHash : Script → Nat
  /-- `ScriptBuf::new_p2wsh`. -/
  newP2wsh : Nat → Script
  /-- `ScriptBuf::new_p2wpkh`. -/
  newP2wpkh : Nat → Script
  /-- The funding-script bytes produced by the `script::Builder` chain in
  `ChannelParams::new` (IF 2 payer payee 2 CHECKMULTISIG ELSE locktime
  CSV DROP payer CHECKSIG ENDIF), as a function of payer key, payee key
  and refund locktime (raw u32). -/
  buildFundingScript : PubKey → PubKey → Nat → Script
  /-- `SighashCache::p2wsh_signature_hash` for input 0 of the given
  transaction, given witness script, committed value and sighash type. -/
  p2wshSignatureHash : Transaction → Script → Amount → SighashType → Nat
  /-- `Secp256k1::verify_ecdsa` as a boolean: message digest, signature,
  key point. -/
  verifyEcdsa : Nat → Nat → Nat → Bool
  /-- `Signature::serialize_der` as bytes. -/
  serializeDer : Nat → List Nat

/-- `PublicKey::wpubkey_hash`: `Ok(hash)` for a compressed key, an
`UncompressedPublicKeyError` (here `none`) otherwise. -/
def wpubkeyHash (π : Primitives) (k : PubKey) : Option Nat :=
  if k.compressed then some (π.pubkeyHash k) else none

/-- `ConfigError` (src/error.rs). -/
inductive ConfigError where
  | InvalidCapacity
  | UncompressedPublicKey
  | InvalidRefundLocktime
deriving DecidableEq, Repr

/-- `FundingError` (src/error.rs). -/
inductive FundingError where
  | TxidMismatch
  | OutputNotFound
  | ValueMismatch
  | ScriptMismatch
deriving DecidableEq, Repr

/-- `PaymentError` (src/error.rs). -/
inductive PaymentError where
  | ExceedsCapacity (available required : Amount)
  | MultipleInputs
  | MissingInput
  | FundingOutpointMismatch
  | MissingWitnessUtxo
  | WitnessUtxoMismatch
  | MissingWitnessScript
  | WitnessScriptMismatch
  | InvalidSequence
  | NonZeroLocktime
  | MissingPayeeOutput
  | PaymentNotIncremental
  | OutputsExceedFundingAmount
  | MissingSignature
  | InvalidSighash
  | InvalidSignature
deriving DecidableEq, Repr

/-- `FinalizeError` (src/error.rs). -/
inductive FinalizeError where
  | MissingSignature (public_key : PubKey)
  | MissingWitnessScript
deriving DecidableEq, Repr

/-- `SpillError` (src/error.rs): grouped error taxonomy. -/
inductive SpillError where
  | Config (e : ConfigError)
  | Funding (e : FundingError)
  | Payment (e : PaymentError)
  | Finalize (e : FinalizeError)
deriving DecidableEq, Repr

/-- The outcome of a Rust call: `Ok`, `Err`, or a panic (reached by
out-of-bounds indexing such as `psbt.inputs[0]` on an empty vector). -/
inductive RustResult (ε α : Type) where
  | ok (a : α)
  | err (e : ε)
  | panics
deriving DecidableEq, Repr

/-- `ChannelParams` (src/channel/mod.rs). -/
structure ChannelParams where
  payer : PubKey
  payee : PubKey
  capacity : Amount
  funding_script : Script
  refund_locktime : Nat
deriving DecidableEq, Repr

/-- `Channel` (src/channel/mod.rs). -/
structure Channel where
  params : ChannelParams
  funding_outpoint : OutPoint
  funding_utxo : TxOut
  sent : Amount
deriving DecidableEq, Repr

/-- `PaymentInfo` (src/channel/payment.rs). -/
structure PaymentInfo where
  total : Amount
  current : Amount
  fee : Amount
deriving DecidableEq, Repr

/-- `ChannelParams::new` (src/channel/mod.rs). -/
def ChannelParams.new (π : Primitives) (payer payee : PubKey) (capacity : Amount)
    (refund_locktime : Nat) : RustResult SpillError ChannelParams :=
  if capacity = 0 then
    .err (.Config .InvalidCapacity)
  else if !(payer.compressed && payee.compressed) then
    .err (.Config .UncompressedPublicKey)
  else if refund_locktime = sequenceZero ∨ refund_locktime = sequenceFromHeight 0 ∨
      refund_locktime = sequenceFrom512SecondIntervals 0 then
    .err (.Config .InvalidRefundLocktime)
  else
    .ok { payer := payer, payee := payee, capacity := capacity
          funding_script := π.buildFundingScript payer payee refund_locktime
          refund_locktime := refund_locktime }

/-- `ChannelParams::funding_psbt` (src/channel/psbt.rs). -/
def ChannelParams.funding_psbt (π : Primitives) (cp : ChannelParams) : Psbt :=
  let script_hash := π.wscriptHash cp.funding_script
  let output : TxOut := { value := cp.capacity, script_pubkey := π.newP2wsh script_hash }
  let tx : Transaction := { version := 2, lock_time := 0, input := [], output := [output] }
  let psbt := Psbt.fromUnsignedTx tx
  { psbt with outputs := psbt.outputs.modifyHead fun o =>
      { o with witness_script := some cp.funding_script } }

/-- `ChannelParams::verify_funding_tx` (src/channel/verify.rs). -/
def ChannelParams.verify_funding_tx (π : Primitives) (cp : ChannelParams)
    (tx : Transaction) (outpoint : OutPoint) : RustResult SpillError Channel :=
  if π.computeTxid tx ≠ outpoint.txid then
    .err (.Funding .TxidMismatch)
  else
    match tx.output[outpoint.vout]? with
    | none => .err (.Funding .OutputNotFound)
    | some output =>
      if output.value ≠ cp.capacity then
        .err (.Funding .ValueMismatch)
      else if output.script_pubkey ≠ π.newP2wsh (π.wscriptHash cp.funding_script) then
        .err (.Funding .ScriptMismatch)
      else
        .ok { params := cp, funding_outpoint := outpoint, funding_utxo := output, sent := 0 }

/-- `Channel::next_payment` (src/channel/payment.rs). The source's local
`required = amount + self.sent + fee` is inlined. -/
def Channel.next_payment (π : Primitives) (ch : Channel) (amount fee : Amount) :
    RustResult SpillError Psbt :=
  if amount + ch.sent + fee > ch.params.capacity then
    .err (.Payment (.ExceedsCapacity ch.params.capacity (amount + ch.sent + fee)))
  else
    match wpubkeyHash π ch.params.payee with
    | none => .err (.Config .UncompressedPublicKey)
    | some payeeHash =>
      match wpubkeyHash π ch.params.payer with
      | none => .err (.Config .UncompressedPublicKey)
      | some payerHash =>
        let input : TxIn :=
          { previous_output := ch.funding_outpoint, script_sig := []
            sequence := sequenceMax, witness := [] }
        let payment : TxOut :=
          { value := amount + ch.sent, script_pubkey := π.newP2wpkh payeeHash }
        let change : TxOut :=
          { value := ch.params.capacity - (amount + ch.sent + fee)
            script_pubkey := π.newP2wpkh payerHash }
        let tx : Transaction :=
          { version := 2, lock_time := 0, input := [input], output := [payment, change] }
        let psbt := Psbt.fromUnsignedTx tx
        let psbt := { psbt with inputs := psbt.inputs.modifyHead fun i =>
          { i with witness_script := some ch.params.funding_script } }
        let psbt := { psbt with inputs := psbt.inputs.modifyHead fun i =>
          { i with witness_utxo := some ch.funding_utxo } }
        .ok psbt

/-- `Channel::verify_payment_psbt` (src/channel/verify.rs): the payment
verification state machine, checks in source order. The `psbt.inputs[0]`
indexing panics when `psbt.inputs` is empty while `unsigned_tx.input` is
not (an invariant-violating raw `Psbt`). -/
def Channel.verify_payment_psbt (π : Primitives) (ch : Channel) (psbt : Psbt) :
    RustResult SpillError PaymentInfo :=
  if psbt.inputs.length > 1 then
    .err (.Payment .MultipleInputs)
  else
    match psbt.unsigned_tx.input.head? with
    | none => .err (.Payment .MissingInput)
    | some txin0 =>
      if txin0.previous_output ≠ ch.funding_outpoint then
        .err (.Payment .FundingOutpointMismatch)
      else
        match psbt.inputs.head? with
        | none => .panics
        | some pin0 =>
          match pin0.witness_utxo with
          | none => .err (.Payment .MissingWitnessUtxo)
          | some witness_utxo =>
            if witness_utxo ≠ ch.funding_utxo then
              .err (.Payment .WitnessUtxoMismatch)
            else
              match pin0.witness_script with
              | none => .err (.Payment .MissingWitnessScript)
              | some witness_script =>
                if witness_script ≠ ch.params.funding_script then
                  .err (.Payment .WitnessScriptMismatch)
                else if txin0.sequence ≠ sequenceMax then
                  .err (.Payment .InvalidSequence)
                else if psbt.unsigned_tx.lock_time ≠ 0 then
                  .err (.Payment .NonZeroLocktime)
                else
                  match wpubkeyHash π ch.params.payee with
                  | none => .err (.Config .UncompressedPublicKey)
                  | some payeeHash =>
                    match psbt.unsigned_tx.output.find?
                        (fun o => o.script_pubkey = π.newP2wpkh payeeHash) with
                    | none => .err (.Payment .MissingPayeeOutput)
                    | some payeeOut =>
                      if payeeOut.value ≤ ch.sent then
                        .err (.Payment .PaymentNotIncremental)
                      else if (psbt.unsigned_tx.output.map TxOut.value).sum >
                          ch.params.capacity then
                        .err (.Payment .OutputsExceedFundingAmount)
                      else
                        match pin0.psigs.lookup ch.params.payer with
                        | none => .err (.Payment .MissingSignature)
                        | some sig =>
                          if sig.sighash_type ≠ SighashType.all ∧
                              sig.sighash_type = SighashType.allPlusAnyoneCanPay then
                            .err (.Payment .InvalidSighash)
                          else if !(π.verifyEcdsa
                              (π.p2wshSignatureHash psbt.unsigned_tx witness_script
                                ch.params.capacity sig.sighash_type)
                              sig.signature ch.params.payer.inner) then
                            .err (.Payment .InvalidSignature)
                          else
                            .ok { total := payeeOut.value
                                  current := payeeOut.value - ch.sent
                                  fee := ch.params.capacity -
                                    (psbt.unsigned_tx.output.map TxOut.value).sum }

/-- `Channel::apply_payment` (src/channel/payment.rs): `&mut self` becomes
state passing — the pair is (channel after the call, returned
`Result<(), SpillError>`). -/
def Channel.apply_payment (π : Primitives) (ch : Channel) (psbt : Psbt) :
    Channel × RustResult SpillError Unit :=
  match Channel.verify_payment_psbt π ch psbt with
  | .ok payment => ({ ch with sent := payment.total }, .ok ())
  | .err e => (ch, .err e)
  | .panics => (ch, .panics)

/-- `Channel::refund_psbt` (src/channel/psbt.rs). -/
def Channel.refund_psbt (_π : Primitives) (ch : Channel) : Psbt :=
  let input : TxIn :=
    { previous_output := ch.funding_outpoint, script_sig := []
      sequence := ch.params.refund_locktime, witness := [] }
  let tx : Transaction := { version := 2, lock_time := 0, input := [input], output := [] }
  let psbt := Psbt.fromUnsignedTx tx
  let psbt := { psbt with inputs := psbt.inputs.modifyHead fun i =>
    { i with witness_utxo := some ch.funding_utxo } }
  { psbt with inputs := psbt.inputs.modifyHead fun i =>
    { i with witness_script := some ch.params.funding_script } }

/-- `Channel::finalize_refund_tx` (src/channel/finalize.rs). The
`psbt.inputs[0]` indexing panics on an inputless PSBT. -/
def Channel.finalize_refund_tx (π : Primitives) (ch : Channel) (psbt : Psbt) :
    RustResult SpillError Psbt :=
  match psbt.inputs with
  | [] => .panics
  | input :: rest =>
    match input.psigs.lookup ch.params.payer with
    | none => .err (.Finalize (.MissingSignature ch.params.payer))
    | some sig_payer =>
      match input.witness_script with
      | none => .err (.Finalize .MissingWitnessScript)
      | some witness_script =>
        let witness : List (List Nat) :=
          [π.serializeDer sig_payer.signature ++ [sig_payer.sighash_type.toU32 % 256],
           [0],
           witness_script]
        .ok { psbt with inputs :=
          { input with final_script_witness := some witness, psigs := [] } :: rest }

/-- `Channel::finalize_payment_tx` (src/channel/finalize.rs). The
`psbt.inputs[0]` indexing panics on an inputless PSBT. -/
def Channel.finalize_payment_tx (π : Primitives) (ch : Channel) (psbt : Psbt) :
    RustResult SpillError Psbt :=
  match psbt.inputs with
  | [] => .panics
  | input :: rest =>
    match input.psigs.lookup ch.params.payer with
    | none => .err (.Finalize (.MissingSignature ch.params.payer))
    | some sig_payer =>
      match input.psigs.lookup ch.params.payee with
      | none => .err (.Finalize (.MissingSignature ch.params.payee))
      | some sig_payee =>
        match input.witness_script with
        | none => .err (.Finalize .MissingWitnessScript)
        | some witness_script =>
          let witness : List (List Nat) :=
            [[],
             π.serializeDer sig_payer.signature ++ [sig_payer.sighash_type.toU32 % 256],
             π.serializeDer sig_payee.signature ++ [sig_payee.sighash_type.toU32 % 256],
             [1],
             witness_script]
          .ok { psbt with inputs :=
            { input with final_script_witness := some witness, psigs := [] } :: rest }

end Spill

namespace Flat

open Spill (Amount Script PubKey OutPoint TxOut TxIn Transaction SighashType EcdsaSig
  PsbtInput PsbtOutput Psbt Primitives ChannelParams Channel PaymentInfo wpubkeyHash
  RustResult sequenceZero sequenceMax sequenceFromHeight sequenceFrom512SecondIntervals)

/-- The flat `SpillError` enumeration of the historical snapshot in
src/lib.rs. -/
inductive FlatError where
  | UncompressedPublicKey
  | InvalidRefundLocktime
  | InvalidCapacity
  | PaymentExceedsCapacity (available required : Amount)
  | PsbtMissingSignature (public_key : PubKey)
  | PsbtMissingWitnessScript
  | FundingTxidMismatch
  | FundingOutputNotFound
  | FundingValueMismatch
  | FundingScriptMismatch
  | PaymentMultipleInputs
  | PaymentMissingInput
  | PaymentWrongInput
  | PaymentMissingWitnessUtxo
  | PaymentWitnessUtxoMismatch
  | PaymentMissingWitnessScript
  | PaymentWitnessScriptMismatch
  | PaymentInvalidSequence
  | PaymentNonZeroLocktime
  | PaymentMissingPayeeOutput
  | PaymentInvalidValue
  | PaymentInvalidOutputSum
  | PaymentMissingSignature
  | PaymentInvalidSighash
  | PaymentInvalidSignature
deriving DecidableEq, Repr

/-- `ChannelParams::new` (src/lib.rs). -/
def ChannelParams.new (π : Primitives) (payer payee : PubKey) (capacity : Amount)
    (refund_locktime : Nat) : RustResult FlatError ChannelParams :=
  if capacity = 0 then
    .err .InvalidCapacity
  else if !(payer.compressed && payee.compressed) then
    .err .UncompressedPublicKey
  else if refund_locktime = sequenceZero ∨ refund_locktime = sequenceFromHeight 0 ∨
      refund_locktime = sequenceFrom512SecondIntervals 0 then
    .err .InvalidRefundLocktime
  else
    .ok { payer := payer, payee := payee, capacity := capacity
          funding_script := π.buildFundingScript payer payee refund_locktime
          refund_locktime := refund_locktime }

/-- `ChannelParams::funding_psbt` (src/lib.rs). -/
def ChannelParams.funding_psbt (π : Primitives) (cp : ChannelParams) : Psbt :=
  let script_hash := π.wscriptHash cp.funding_script
  let output : TxOut := { value := cp.capacity, script_pubkey := π.newP2wsh script_hash }
  let tx : Transaction := { version := 2, lock_time := 0, input := [], output := [output] }
  let psbt := Psbt.fromUnsignedTx tx
  { psbt with outputs := psbt.outputs.modifyHead fun o =>
      { o with witness_script := some cp.funding_script } }

/-- `ChannelParams::verify_funding_tx` (src/lib.rs). -/
def ChannelParams.verify_funding_tx (π : Primitives) (cp : ChannelParams)
    (tx : Transaction) (outpoint : OutPoint) : RustResult FlatError Channel :=
  if π.computeTxid tx ≠ outpoint.txid then
    .err .FundingTxidMismatch
  else
    match tx.output[outpoint.vout]? with
    | none => .err .FundingOutputNotFound
    | some output =>
      if output.value ≠ cp.capacity then
        .err .FundingValueMismatch
      else if output.script_pubkey ≠ π.newP2wsh (π.wscriptHash cp.funding_script) then
        .err .FundingScriptMismatch
      else
        .ok { params := cp, funding_outpoint := outpoint, funding_utxo := output, sent := 0 }

/-- `Channel::next_payment` (src/lib.rs), with `required` inlined as in
the module version. -/
def Channel.next_payment (π : Primitives) (ch : Channel) (amount fee : Amount) :
    RustResult FlatError Psbt :=
  if amount + ch.sent + fee > ch.params.capacity then
    .err (.PaymentExceedsCapacity ch.params.capacity (amount + ch.sent + fee))
  else
    match wpubkeyHash π ch.params.payee with
    | none => .err .UncompressedPublicKey
    | some payeeHash =>
      match wpubkeyHash π ch.params.payer with
      | none => .err .UncompressedPublicKey
      | some payerHash =>
        let input : TxIn :=
          { previous_output := ch.funding_outpoint, script_sig := []
            sequence := sequenceMax, witness := [] }
        let payment : TxOut :=
          { value := amount + ch.sent, script_pubkey := π.newP2wpkh payeeHash }
        let change : TxOut :=
          { value := ch.params.capacity - (amount + ch.sent + fee)
            script_pubkey := π.newP2wpkh payerHash }
        let tx : Transaction :=
          { version := 2, lock_time := 0, input := [input], output := [payment, change] }
        let psbt := Psbt.fromUnsignedTx tx
        let psbt := { psbt with inputs := psbt.inputs.modifyHead fun i =>
          { i with witness_script := some ch.params.funding_script } }
        let psbt := { psbt with inputs := psbt.inputs.modifyHead fun i =>
          { i with witness_utxo := some ch.funding_utxo } }
        .ok psbt

/-- `Channel::verify_payment_psbt` (src/lib.rs), with the flat error
names (`PaymentWrongInput`, `PaymentInvalidValue`, `PaymentInvalidOutputSum`)
and the same check chain — including the same sighash condition
`!= All && == AllPlusAnyoneCanPay`. -/
def Channel.verify_payment_psbt (π : Primitives) (ch : Channel) (psbt : Psbt) :
    RustResult FlatError PaymentInfo :=
  if psbt.inputs.length > 1 then
    .err .PaymentMultipleInputs
  else
    match psbt.unsigned_tx.input.head? with
    | none => .err .PaymentMissingInput
    | some txin0 =>
      if txin0.previous_output ≠ ch.funding_outpoint then
        .err .PaymentWrongInput
      else
        match psbt.inputs.head? with
        | none => .panics
        | some pin0 =>
          match pin0.witness_utxo with
          | none => .err .PaymentMissingWitnessUtxo
          | some witness_utxo =>
            if witness_utxo ≠ ch.funding_utxo then
              .err .PaymentWitnessUtxoMismatch
            else
              match pin0.witness_script with
              | none => .err .PaymentMissingWitnessScript
              | some witness_script =>
                if witness_script ≠ ch.params.funding_script then
                  .err .PaymentWitnessScriptMismatch
                else if txin0.sequence ≠ sequenceMax then
                  .err .PaymentInvalidSequence
                else if psbt.unsigned_tx.lock_time ≠ 0 then
                  .err .PaymentNonZeroLocktime
                else
                  match wpubkeyHash π ch.params.payee with
                  | none => .err .UncompressedPublicKey
                  | some payeeHash =>
                    match psbt.unsigned_tx.output.find?
                        (fun o => o.script_pubkey = π.newP2wpkh payeeHash) with
                    | none => .err .PaymentMissingPayeeOutput
                    | some payeeOut =>
                      if payeeOut.value ≤ ch.sent then
                        .err .PaymentInvalidValue
                      else if (psbt.unsigned_tx.output.map TxOut.value).sum >
                          ch.params.capacity then
                        .err .PaymentInvalidOutputSum
                      else
                        match pin0.psigs.lookup ch.params.payer with
                        | none => .err .PaymentMissingSignature
                        | some sig =>
                          if sig.sighash_type ≠ SighashType.all ∧
                              sig.sighash_type = SighashType.allPlusAnyoneCanPay then
                            .err .PaymentInvalidSighash
                          else if !(π.verifyEcdsa
                              (π.p2wshSignatureHash psbt.unsigned_tx witness_script
                                ch.params.capacity sig.sighash_type)
                              sig.signature ch.params.payer.inner) then
                            .err .PaymentInvalidSignature
                          else
                            .ok { total := payeeOut.value
                                  current := payeeOut.value - ch.sent
                                  fee := ch.params.capacity -
                                    (psbt.unsigned_tx.output.map TxOut.value).sum }

/-- `Channel::apply_payment` (src/lib.rs). -/
def Channel.apply_payment (π : Primitives) (ch : Channel) (psbt : Psbt) :
    Channel × RustResult FlatError Unit :=
  match Channel.verify_payment_psbt π ch psbt with
  | .ok payment => ({ ch with sent := payment.total }, .ok ())
  | .err e => (ch, .err e)
  | .panics => (ch, .panics)

/-- `Channel::refund_psbt` (src/lib.rs). -/
def Channel.refund_psbt (_π : Primitives) (ch : Channel) : Psbt :=
  let input : TxIn :=
    { previous_output := ch.funding_outpoint, script_sig := []
      sequence := ch.params.refund_locktime, witness := [] }
  let tx : Transaction := { version := 2, lock_time := 0, input := [input], output := [] }
  let psbt := Psbt.fromUnsignedTx tx
  let psbt := { psbt with inputs := psbt.inputs.modifyHead fun i =>
    { i with witness_utxo := some ch.funding_utxo } }
  { psbt with inputs := psbt.inputs.modifyHead fun i =>
    { i with witness_script := some ch.params.funding_script } }

/-- `Channel::finalize_refund_tx` (src/lib.rs). -/
def Channel.finalize_refund_tx (π : Primitives) (ch : Channel) (psbt : Psbt) :
    RustResult FlatError Psbt :=
  match psbt.inputs with
  | [] => .panics
  | input :: rest =>
    match input.psigs.lookup ch.params.payer with
    | none => .err (.PsbtMissingSignature ch.params.payer)
    | some sig_payer =>
      match input.witness_script with
      | none => .err .PsbtMissingWitnessScript
      | some witness_script =>
        let witness : List (List Nat) :=
          [π.serializeDer sig_payer.signature ++ [sig_payer.sighash_type.toU32 % 256],
           [0],
           witness_script]
        .ok { psbt with inputs :=
          { input with final_script_witness := some witness, psigs := [] } :: rest }

/-- `Channel::finalize_payment_tx` (src/lib.rs). -/
def Channel.finalize_payment_tx (π : Primitives) (ch : Channel) (psbt : Psbt) :
    RustResult FlatError Psbt :=
  match psbt.inputs with
  | [] => .panics
  | input :: rest =>
    match input.psigs.lookup ch.params.payer with
    | none => .err (.PsbtMissingSignature ch.params.payer)
    | some sig_payer =>
      match input.psigs.lookup ch.params.payee with
      | none => .err (.PsbtMissingSignature ch.params.payee)
      | some sig_payee =>
        match input.witness_script with
        | none => .err .PsbtMissingWitnessScript
        | some witness_script =>
          let witness : List (List Nat) :=
            [[],
             π.serializeDer sig_payer.signature ++ [sig_payer.sighash_type.toU32 % 256],
             π.serializeDer sig_payee.signature ++ [sig_payee.sighash_type.toU32 % 256],
             [1],
             witness_script]
          .ok { psbt with inputs :=
            { input with final_script_witness := some witness, psigs := [] } :: rest }

end Flat

namespace Spill

/-- The renaming from the grouped error taxonomy of the channel module to
the flat enumeration of the src/lib.rs snapshot. -/
def flattenError : SpillError → Flat.FlatError
  | .Config .InvalidCapacity => .InvalidCapacity
  | .Config .UncompressedPublicKey => .UncompressedPublicKey
  | .Config .InvalidRefundLocktime => .InvalidRefundLocktime
  | .Funding .TxidMismatch => .FundingTxidMismatch
  | .Funding .OutputNotFound => .FundingOutputNotFound
  | .Funding .ValueMismatch => .FundingValueMismatch
  | .Funding .ScriptMismatch => .FundingScriptMismatch
  | .Payment (.ExceedsCapacity a r) => .PaymentExceedsCapacity a r
  | .Payment .MultipleInputs => .PaymentMultipleInputs
  | .Payment .MissingInput => .PaymentMissingInput
  | .Payment .FundingOutpointMismatch => .PaymentWrongInput
  | .Payment .MissingWitnessUtxo => .PaymentMissingWitnessUtxo
  | .Payment .WitnessUtxoMismatch => .PaymentWitnessUtxoMismatch
  | .Payment .MissingWitnessScript => .PaymentMissingWitnessScript
  | .Payment .WitnessScriptMismatch => .PaymentWitnessScriptMismatch
  | .Payment .InvalidSequence => .PaymentInvalidSequence
  | .Payment .NonZeroLocktime => .PaymentNonZeroLocktime
  | .Payment .MissingPayeeOutput => .PaymentMissingPayeeOutput
  | .Payment .PaymentNotIncremental => .PaymentInvalidValue
  | .Payment .OutputsExceedFundingAmount => .PaymentInvalidOutputSum
  | .Payment .MissingSignature => .PaymentMissingSignature
  | .Payment .InvalidSighash => .PaymentInvalidSighash
  | .Payment .InvalidSignature => .PaymentInvalidSignature
  | .Finalize (.MissingSignature k) => .PsbtMissingSignature k
  | .Finalize .MissingWitnessScript => .PsbtMissingWitnessScript

/-- Map a renaming over the error component of a `RustResult`. -/
def mapErrResult {ε ε' α : Type} (f : ε → ε') : RustResult ε α → RustResult ε' α
  | .ok a => .ok a
  | .err e => .err (f e)
  | .panics => .panics

/-! ### Concrete fixtures

A concrete instantiation of the injected `Primitives` capability and a
concrete funded channel, used to evaluate the embedded code on explicit
inputs (counterexamples and witnesses). `cverifyEcdsa` accepts every
signature, modelling scenarios where the artifact is correctly signed. -/

/-- A concrete, executable instance of the injected primitives. -/
def cPrims : Primitives :=
  { computeTxid := fun _ => 11
    pubkeyHash := fun k => k.inner
    wscriptHash := fun s => s.sum + 1000
    newP2wsh := fun h => [0, 32, h]
    newP2wpkh := fun h => [0, 20, h]
    buildFundingScript := fun p q l => [99, p.inner, q.inner, l]
    p2wshSignatureHash := fun _ _ _ _ => 77
    verifyEcdsa := fun _ _ _ => true
    serializeDer := fun s => [48, s] }

/-- Concrete payer key (compressed). -/
def cPayer : PubKey := { inner := 1, compressed := true }

/-- Concrete payee key (compressed). -/
def cPayee : PubKey := { inner := 2, compressed := true }

/-- Concrete channel parameters: capacity 100,000,000 sats, refund
locktime 10 — exactly the value `ChannelParams.new cPrims cPayer cPayee
100000000 10` returns. -/
def cParams : ChannelParams :=
  { payer := cPayer, payee := cPayee, capacity := 100000000
    funding_script := cPrims.buildFundingScript cPayer cPayee 10
    refund_locktime := 10 }

/-- A concrete funding transaction paying the capacity to the channel's
P2WSH script at output 0. -/
def cFundingTx : Transaction :=
  { version := 2, lock_time := 0, input := []
    output := [{ value := 100000000
                 script_pubkey := cPrims.newP2wsh (cPrims.wscriptHash cParams.funding_script) }] }

/-- The claimed funding outpoint for `cFundingTx` (its txid under
`cPrims` is 11). -/
def cOutpoint : OutPoint := { txid := 11, vout := 0 }

/-- The concrete funded channel — exactly the value
`ChannelParams.verify_funding_tx cPrims cParams cFundingTx cOutpoint`
returns. -/
def cChannel : Channel :=
  { params := cParams, funding_outpoint := cOutpoint
    funding_utxo := { value := 100000000
                      script_pubkey := cPrims.newP2wsh (cPrims.wscriptHash cParams.funding_script) }
    sent := 0 }

/-- A well-formed payment PSBT over `cChannel`: payee output value `v`,
payer change `c`, payer signature declaring sighash type `ty`. -/
def cPayPsbt (v c : Amount) (ty : SighashType) : Psbt :=
  { unsigned_tx :=
      { version := 2, lock_time := 0
        input := [{ previous_output := cOutpoint, script_sig := []
                    sequence := sequenceMax, witness := [] }]
        output := [{ value := v, script_pubkey := cPrims.newP2wpkh (cPrims.pubkeyHash cPayee) },
                   { value := c, script_pubkey := cPrims.newP2wpkh (cPrims.pubkeyHash cPayer) }] }
    inputs := [{ witness_utxo := some cChannel.funding_utxo
                 witness_script := some cParams.funding_script
                 psigs := [(cPayer, { signature := 5555, sighash_type := ty })]
                 final_script_witness := none }]
    outputs := [{ witness_script := none }, { witness_script := none }] }

/-! ### Helper lemmas about the payment verifier -/

/-- The payee-output value of a payment artifact: the value of the first
output paying the payee's P2WPKH script (the output the verifier selects
with `find`). -/
def payeeOutputValue (π : Primitives) (ch : Channel) (psbt : Psbt) : Option Amount :=
  (psbt.unsigned_tx.output.find? fun o =>
    o.script_pubkey = π.newP2wpkh (π.pubkeyHash ch.params.payee)).map TxOut.value

set_option maxHeartbeats 2000000 in
theorem verify_ok_payee_value {π : Primitives} {ch : Channel} {psbt : Psbt}
    {info : PaymentInfo} (h : Channel.verify_payment_psbt π ch psbt = .ok info) :
    payeeOutputValue π ch psbt = some info.total ∧ ch.sent < info.total := by
  unfold Channel.verify_payment_psbt at h
  repeat' split at h
  all_goals try (exfalso; exact RustResult.noConfusion h)
  rename wpubkeyHash π ch.params.payee = some _ => hhash
  rename List.find? _ _ = some _ => hfind
  rename ¬ _ ≤ ch.sent => hgt
  simp only [RustResult.ok.injEq] at h
  subst h
  have hcomp : ch.params.payee.compressed = true := by
    by_contra hc
    simp [wpubkeyHash, hc] at hhash
  simp only [wpubkeyHash, hcomp, if_pos, Option.some.injEq] at hhash
  subst hhash
  simp only [payeeOutputValue, hfind, Option.map_some']
  exact ⟨by trivial, Nat.lt_of_not_le hgt⟩

set_option maxHeartbeats 2000000 in
theorem verify_ok_total_le_capacity {π : Primitives} {ch : Channel} {psbt : Psbt}
    {info : PaymentInfo} (h : Channel.verify_payment_psbt π ch psbt = .ok info) :
    info.total ≤ ch.params.capacity := by
  unfold Channel.verify_payment_psbt at h
  repeat' split at h
  all_goals try (exfalso; exact RustResult.noConfusion h)
  rename List.find? _ _ = some _ => hfind
  rename ¬ _ > ch.params.capacity => hle
  simp only [RustResult.ok.injEq] at h
  subst h
  have hmem := List.mem_of_find?_eq_some hfind
  have hle2 : _ ≤ (psbt.unsigned_tx.output.map TxOut.value).sum :=
    List.single_le_sum (fun x _ => Nat.zero_le x) _ (List.mem_map_of_mem TxOut.value hmem)
  exact le_trans hle2 (Nat.le_of_not_lt hle)

/-! ### Claim theorems -/

/-- Claim C1. The claim states that the payment verifier accepts only the
SIGHASH_ALL sighash type and rejects every other type — including
SIGHASH_NONE and SIGHASH_SINGLE — with `InvalidSighash`. The code's
condition `sighash_type != All && sighash_type == AllPlusAnyoneCanPay`
rejects exactly ALL|ANYONECANPAY: on an otherwise perfectly formed and
correctly signed artifact, a signature declaring SIGHASH_NONE (or
SIGHASH_SINGLE) passes the sighash gate and the verifier accepts, where
the claim (and the code's own doc comments) require a rejection. -/
theorem c1_sighash_acceptance_gap :
    Channel.verify_payment_psbt cPrims cChannel (cPayPsbt 5 99999995 .noneTy)
      = .ok { total := 5, current := 5, fee := 0 }
    ∧ Channel.verify_payment_psbt cPrims cChannel (cPayPsbt 5 99999995 .noneTy)
      ≠ .err (.Payment .InvalidSighash)
    ∧ Channel.verify_payment_psbt cPrims cChannel (cPayPsbt 5 99999995 .single)
      ≠ .err (.Payment .InvalidSighash)
    ∧ Channel.verify_payment_psbt cPrims cChannel (cPayPsbt 5 99999995 .allPlusAnyoneCanPay)
      = .err (.Payment .InvalidSighash)
    ∧ Channel.verify_payment_psbt cPrims cChannel (cPayPsbt 5 99999995 .all)
      = .ok { total := 5, current := 5, fee := 0 } :=
  ⟨by decide, by decide, by decide, by decide, by decide⟩

/-- Claim C4, counterexample to the claim as stated. `apply_payment`
returns `Result<(), SpillError>`: on success the returned value is the
unit value `()`, not the payment facts. Two successful applications whose
verified facts differ (totals 5 and 7) return identical values, so the
return value of `apply_payment` cannot carry the payment facts. -/
theorem c4_counterexample :
    (Channel.apply_payment cPrims cChannel (cPayPsbt 5 99999995 .all)).2 = .ok ()
    ∧ (Channel.apply_payment cPrims cChannel (cPayPsbt 7 99999993 .all)).2 = .ok ()
    ∧ Channel.verify_payment_psbt cPrims cChannel (cPayPsbt 5 99999995 .all)
        ≠ Channel.verify_payment_psbt cPrims cChannel (cPayPsbt 7 99999993 .all)
    ∧ (Channel.apply_payment cPrims cChannel (cPayPsbt 5 99999995 .all)).2
        = (Channel.apply_payment cPrims cChannel (cPayPsbt 7 99999993 .all)).2 :=
  ⟨by decide, by decide, by decide, by decide⟩

/-- Claim C4 as amended. `apply_payment` first runs `verify_payment_psbt`;
on success it sets `sent` to the verified cumulative total, leaves every
other channel field unchanged, and returns `Ok(())` (the unit value — the
facts themselves are not returned); on failure it leaves the entire
channel state unchanged and propagates the verifier's error unchanged
(and on a verifier panic it panics without updating state). It is the
only state-changing operation after channel creation; `verify_payment_psbt`
takes the channel immutably and never mutates it. -/
theorem c4_apply_payment_state (π : Primitives) (ch : Channel) (psbt : Psbt) :
    (∀ info, Channel.verify_payment_psbt π ch psbt = .ok info →
      Channel.apply_payment π ch psbt = ({ ch with sent := info.total }, .ok ()))
    ∧ (∀ e, Channel.verify_payment_psbt π ch psbt = .err e →
      Channel.apply_payment π ch psbt = (ch, .err e))
    ∧ (Channel.verify_payment_psbt π ch psbt = .panics →
      Channel.apply_payment π ch psbt = (ch, .panics)) := by
  refine ⟨fun info h => ?_, fun e h => ?_, fun h => ?_⟩ <;>
    simp [Channel.apply_payment, h]

/-- Witness for C4's amended theorem at a concrete successful payment:
`sent` becomes the verified total 5 and the returned value is `Ok(())`. -/
theorem c4_witness :
    Channel.apply_payment cPrims cChannel (cPayPsbt 5 99999995 .all)
      = ({ cChannel with sent := 5 }, .ok ()) :=
  (c4_apply_payment_state cPrims cChannel (cPayPsbt 5 99999995 .all)).1
    { total := 5, current := 5, fee := 0 } (by decide)

/-- Claim C9. On any PSBT whose `inputs` list is empty, both finalizers
index `psbt.inputs[0]` and panic (index out of bounds) instead of
returning a `SpillError`. -/
theorem c9_finalize_panics_on_empty_inputs (π : Primitives) (ch : Channel) (psbt : Psbt)
    (h : psbt.inputs = []) :
    Channel.finalize_payment_tx π ch psbt = .panics
    ∧ Channel.finalize_refund_tx π ch psbt = .panics := by
  unfold Channel.finalize_payment_tx Channel.finalize_refund_tx
  rw [h]
  exact ⟨rfl, rfl⟩

/-- Witness for C9 at a concrete inputless PSBT. -/
theorem c9_witness :
    Channel.finalize_payment_tx cPrims cChannel
        { unsigned_tx := { version := 2, lock_time := 0, input := [], output := [] }
          inputs := [], outputs := [] } = .panics
    ∧ Channel.finalize_refund_tx cPrims cChannel
        { unsigned_tx := { version := 2, lock_time := 0, input := [], output := [] }
          inputs := [], outputs := [] } = .panics :=
  c9_finalize_panics_on_empty_inputs cPrims cChannel _ rfl

/-- Claim C3. Strict monotonicity of the payment verifier: (a) whenever
verification succeeds, the payee-output value (the value of the first
output paying the payee's P2WPKH script) is the returned cumulative total
and is strictly greater than the current `sent`; (b) on an artifact that
passes every check preceding the monotonicity check (single input on the
funding outpoint, matching witness UTXO and witness script, max sequence,
zero locktime, payee output present) but whose payee-output value is at
most `sent`, the verifier returns `PaymentNotIncremental` — however
otherwise well-formed and signed the artifact is. -/
theorem c3_payment_monotonicity (π : Primitives) (ch : Channel) (psbt : Psbt) :
    (∀ info, Channel.verify_payment_psbt π ch psbt = .ok info →
      payeeOutputValue π ch psbt = some info.total ∧ ch.sent < info.total)
    ∧ (∀ txin0 pin0 v,
      psbt.inputs.length ≤ 1 →
      psbt.unsigned_tx.input.head? = some txin0 →
      txin0.previous_output = ch.funding_outpoint →
      psbt.inputs.head? = some pin0 →
      pin0.witness_utxo = some ch.funding_utxo →
      pin0.witness_script = some ch.params.funding_script →
      txin0.sequence = sequenceMax →
      psbt.unsigned_tx.lock_time = 0 →
      ch.params.payee.compressed = true →
      payeeOutputValue π ch psbt = some v →
      v ≤ ch.sent →
      Channel.verify_payment_psbt π ch psbt = .err (.Payment .PaymentNotIncremental)) := by
  constructor
  · exact fun info h => verify_ok_payee_value h
  · intro txin0 pin0 v h1 h2 h3 h4 h5 h6 h7 h8 h9 h10 h11
    obtain ⟨payeeOut, hfind, hval⟩ := Option.map_eq_some'.mp h10
    unfold Channel.verify_payment_psbt
    rw [if_neg (by omega)]
    simp only [h2, h3, h4, h5, h6, h7, h8, wpubkeyHash, h9, if_pos]
    simp [hfind, hval, h11]


/-- Witness for C3 at a concrete channel with `sent = 5` and a perfectly
formed, correctly signed artifact whose payee output is also 5. -/
theorem c3_witness :
    Channel.verify_payment_psbt cPrims { cChannel with sent := 5 } (cPayPsbt 5 99999995 .all)
      = .err (.Payment .PaymentNotIncremental) :=
  (c3_payment_monotonicity cPrims { cChannel with sent := 5 } (cPayPsbt 5 99999995 .all)).2
    { previous_output := cOutpoint, script_sig := [], sequence := sequenceMax, witness := [] }
    { witness_utxo := some cChannel.funding_utxo
      witness_script := some cParams.funding_script
      psigs := [(cPayer, { signature := 5555, sighash_type := .all })]
      final_script_witness := none }
    5 (by decide) rfl rfl rfl rfl rfl rfl rfl rfl (by decide) (by decide)

/-! ### Channel sessions (for claim C2) -/

/-- One call against an established channel, for session traces: the five
`&self` operations and the single `&mut self` operation
(`apply_payment`). -/
inductive ChannelOp where
  | nextPayment (amount fee : Amount)
  | verifyPayment (psbt : Psbt)
  | refundPsbt
  | finalizePayment (psbt : Psbt)
  | finalizeRefund (psbt : Psbt)
  | applyPayment (psbt : Psbt)

/-- The channel state after one call. The `&self` operations
(`next_payment`, `verify_payment_psbt`, `refund_psbt`,
`finalize_payment_tx`, `finalize_refund_tx`) borrow the channel
immutably and cannot change it; `apply_payment` yields its updated
state. -/
def stepChannel (π : Primitives) (ch : Channel) : ChannelOp → Channel
  | .applyPayment psbt => (Channel.apply_payment π ch psbt).1
  | _ => ch

/-- The channel state after a sequence of calls. -/
def runOps (π : Primitives) (ch : Channel) : List ChannelOp → Channel
  | [] => ch
  | op :: ops => runOps π (stepChannel π ch op) ops

theorem stepChannel_params (π : Primitives) (ch : Channel) (op : ChannelOp) :
    (stepChannel π ch op).params = ch.params := by
  cases op <;> simp only [stepChannel]
  unfold Channel.apply_payment
  split <;> rfl

theorem stepChannel_sent_mono (π : Primitives) (ch : Channel) (op : ChannelOp) :
    ch.sent ≤ (stepChannel π ch op).sent := by
  cases op <;> simp only [stepChannel] <;> try exact le_refl _
  unfold Channel.apply_payment
  split
  · next info h => exact Nat.le_of_lt (verify_ok_payee_value h).2
  · exact le_refl _
  · exact le_refl _

theorem stepChannel_sent_le_capacity (π : Primitives) (ch : Channel) (op : ChannelOp)
    (h : ch.sent ≤ ch.params.capacity) :
    (stepChannel π ch op).sent ≤ ch.params.capacity := by
  cases op <;> simp only [stepChannel] <;> try exact h
  unfold Channel.apply_payment
  split
  · next info heq => exact verify_ok_total_le_capacity heq
  · exact h
  · exact h

theorem runOps_params (π : Primitives) (ch : Channel) (ops : List ChannelOp) :
    (runOps π ch ops).params = ch.params := by
  induction ops generalizing ch with
  | nil => rfl
  | cons op ops ih => rw [runOps, ih, stepChannel_params]

theorem runOps_sent_mono (π : Primitives) (ch : Channel) (ops : List ChannelOp) :
    ch.sent ≤ (runOps π ch ops).sent := by
  induction ops generalizing ch with
  | nil => exact le_refl _
  | cons op ops ih => exact le_trans (stepChannel_sent_mono π ch op) (ih _)

theorem runOps_append (π : Primitives) (ch : Channel) (ops more : List ChannelOp) :
    runOps π ch (ops ++ more) = runOps π (runOps π ch ops) more := by
  induction ops generalizing ch with
  | nil => rfl
  | cons op ops ih => rw [List.cons_append, runOps, runOps, ih]

theorem runOps_sent_le_capacity (π : Primitives) (ch : Channel) (ops : List ChannelOp)
    (h : ch.sent ≤ ch.params.capacity) :
    (runOps π ch ops).sent ≤ ch.params.capacity := by
  induction ops generalizing ch with
  | nil => exact h
  | cons op ops ih =>
    rw [runOps]
    have hstep : (stepChannel π ch op).sent ≤ (stepChannel π ch op).params.capacity := by
      rw [stepChannel_params]
      exact stepChannel_sent_le_capacity π ch op h
    have := ih (stepChannel π ch op) hstep
    rwa [stepChannel_params π ch op] at this

theorem verify_funding_ok_shape {π : Primitives} {cp : ChannelParams} {tx : Transaction}
    {outpoint : OutPoint} {ch : Channel}
    (h : ChannelParams.verify_funding_tx π cp tx outpoint = .ok ch) :
    π.computeTxid tx = outpoint.txid
    ∧ tx.output[outpoint.vout]? = some ch.funding_utxo
    ∧ ch.funding_utxo.value = cp.capacity
    ∧ ch.funding_utxo.script_pubkey = π.newP2wsh (π.wscriptHash cp.funding_script)
    ∧ ch = { params := cp, funding_outpoint := outpoint
             funding_utxo := ch.funding_utxo, sent := 0 } := by
  unfold ChannelParams.verify_funding_tx at h
  repeat' split at h
  all_goals try (exfalso; exact RustResult.noConfusion h)
  simp only [RustResult.ok.injEq] at h
  subst h
  rename ¬ π.computeTxid tx ≠ outpoint.txid => htxid
  rename _ = some _ => hget
  rename ¬ TxOut.value _ ≠ cp.capacity => hval
  rename ¬ TxOut.script_pubkey _ ≠ _ => hscript
  exact ⟨Classical.not_not.mp htxid, hget, Classical.not_not.mp hval,
    Classical.not_not.mp hscript, rfl⟩

/-- Claim C2. For every channel produced by `verify_funding_tx` and every
sequence of channel calls, `sent` starts at 0, never decreases along the
session, never exceeds the capacity, and every successful
`apply_payment` moves it to a strictly greater total. -/
theorem c2_sent_invariant (π : Primitives) (cp : ChannelParams) (tx : Transaction)
    (outpoint : OutPoint) (ch : Channel)
    (h : ChannelParams.verify_funding_tx π cp tx outpoint = .ok ch) :
    ch.sent = 0
    ∧ (∀ ops more, (runOps π ch ops).sent ≤ (runOps π ch (ops ++ more)).sent)
    ∧ (∀ ops, (runOps π ch ops).sent ≤ ch.params.capacity)
    ∧ (∀ ops psbt, (Channel.apply_payment π (runOps π ch ops) psbt).2 = .ok () →
        (runOps π ch ops).sent < (Channel.apply_payment π (runOps π ch ops) psbt).1.sent) := by
  have hshape := verify_funding_ok_shape h
  have hsent : ch.sent = 0 := by rw [hshape.2.2.2.2]
  refine ⟨hsent, ?_, ?_, ?_⟩
  · intro ops more
    rw [runOps_append]
    exact runOps_sent_mono π (runOps π ch ops) more
  · intro ops
    exact runOps_sent_le_capacity π ch ops (by rw [hsent]; exact Nat.zero_le _)
  · intro ops psbt happly
    unfold Channel.apply_payment at happly ⊢
    split at happly
    · next info heq =>
      simp only [heq]
      exact (verify_ok_payee_value heq).2
    · exact absurd happly (by simp)
    · exact absurd happly (by simp)

/-- Witness for C2 at the concrete funded channel: `sent` starts at 0 and
after a session consisting of one successful payment of 5 sats it is
still at most the capacity. -/
theorem c2_witness :
    cChannel.sent = 0
    ∧ (runOps cPrims cChannel [.applyPayment (cPayPsbt 5 99999995 .all)]).sent
        ≤ cChannel.params.capacity :=
  have h := c2_sent_invariant cPrims cParams cFundingTx cOutpoint cChannel (by decide)
  ⟨h.1, h.2.2.1 [.applyPayment (cPayPsbt 5 99999995 .all)]⟩


/-- Claim C5. `verify_funding_tx` checks, in order: recomputed txid
against the claimed outpoint's txid (`TxidMismatch`), existence of the
output at the claimed index (`OutputNotFound`), exact value equality with
the capacity (`ValueMismatch`), and exact script equality with the P2WSH
of the spending script (`ScriptMismatch`); it succeeds exactly when all
four pass, returning a channel with `sent = 0` whose `funding_utxo` is
the observed output. -/
theorem c5_verify_funding_characterization (π : Primitives) (cp : ChannelParams)
    (tx : Transaction) (outpoint : OutPoint) :
    (π.computeTxid tx ≠ outpoint.txid →
      ChannelParams.verify_funding_tx π cp tx outpoint = .err (.Funding .TxidMismatch))
    ∧ (π.computeTxid tx = outpoint.txid → tx.output[outpoint.vout]? = none →
      ChannelParams.verify_funding_tx π cp tx outpoint = .err (.Funding .OutputNotFound))
    ∧ (∀ output, π.computeTxid tx = outpoint.txid →
      tx.output[outpoint.vout]? = some output → output.value ≠ cp.capacity →
      ChannelParams.verify_funding_tx π cp tx outpoint = .err (.Funding .ValueMismatch))
    ∧ (∀ output, π.computeTxid tx = outpoint.txid →
      tx.output[outpoint.vout]? = some output → output.value = cp.capacity →
      output.script_pubkey ≠ π.newP2wsh (π.wscriptHash cp.funding_script) →
      ChannelParams.verify_funding_tx π cp tx outpoint = .err (.Funding .ScriptMismatch))
    ∧ (∀ output, π.computeTxid tx = outpoint.txid →
      tx.output[outpoint.vout]? = some output → output.value = cp.capacity →
      output.script_pubkey = π.newP2wsh (π.wscriptHash cp.funding_script) →
      ChannelParams.verify_funding_tx π cp tx outpoint =
        .ok { params := cp, funding_outpoint := outpoint, funding_utxo := output, sent := 0 })
    ∧ (∀ ch, ChannelParams.verify_funding_tx π cp tx outpoint = .ok ch →
      π.computeTxid tx = outpoint.txid
      ∧ tx.output[outpoint.vout]? = some ch.funding_utxo
      ∧ ch.funding_utxo.value = cp.capacity
      ∧ ch.funding_utxo.script_pubkey = π.newP2wsh (π.wscriptHash cp.funding_script)
      ∧ ch.params = cp ∧ ch.funding_outpoint = outpoint ∧ ch.sent = 0) := by
  refine ⟨?_, ?_, ?_, ?_, ?_, ?_⟩
  · intro h
    simp [ChannelParams.verify_funding_tx, h]
  · intro h1 h2
    simp [ChannelParams.verify_funding_tx, h1, h2]
  · intro output h1 h2 h3
    simp [ChannelParams.verify_funding_tx, h1, h2, h3]
  · intro output h1 h2 h3 h4
    simp [ChannelParams.verify_funding_tx, h1, h2, h3, h4]
  · intro output h1 h2 h3 h4
    simp [ChannelParams.verify_funding_tx, h1, h2, h3, h4]
  · intro ch h
    have hs := verify_funding_ok_shape h
    exact ⟨hs.1, hs.2.1, hs.2.2.1, hs.2.2.2.1, by rw [hs.2.2.2.2], by rw [hs.2.2.2.2],
      by rw [hs.2.2.2.2]⟩

/-- Witness for C5: the concrete funding transaction with the exact
capacity is accepted (yielding `cChannel`), and the same transaction with
value 99,999,999 instead of 100,000,000 is rejected with
`ValueMismatch`. -/
theorem c5_witness :
    ChannelParams.verify_funding_tx cPrims cParams cFundingTx cOutpoint = .ok cChannel
    ∧ ChannelParams.verify_funding_tx cPrims cParams
        { version := 2, lock_time := 0, input := []
          output := [{ value := 99999999
                       script_pubkey := cPrims.newP2wsh (cPrims.wscriptHash cParams.funding_script) }] }
        cOutpoint = .err (.Funding .ValueMismatch) := by
  constructor
  · exact (c5_verify_funding_characterization cPrims cParams cFundingTx cOutpoint).2.2.2.2.1
      { value := 100000000
        script_pubkey := cPrims.newP2wsh (cPrims.wscriptHash cParams.funding_script) }
      (by decide) (by decide) (by decide) (by decide)
  · exact (c5_verify_funding_characterization cPrims cParams _ cOutpoint).2.2.1
      { value := 99999999
        script_pubkey := cPrims.newP2wsh (cPrims.wscriptHash cParams.funding_script) }
      (by decide) (by decide) (by decide)

/-- Claim C6. `next_payment(amount, fee)` on a channel with `sent = s`
and capacity `C`: with `required = amount + s + fee`, it fails with
`ExceedsCapacity{available: C, required}` exactly when `required > C`,
and otherwise returns the one-input, two-output unsigned PSBT paying the
payee the cumulative `amount + s` and the payer the change `C − required`,
with version 2, max sequence, zero locktime, and the funding UTXO and
spending script attached to input 0. (The compressed-key hypotheses hold
for every channel reachable through `ChannelParams::new`.) -/
theorem c6_next_payment (π : Primitives) (ch : Channel) (amount fee : Amount)
    (hpayer : ch.params.payer.compressed = true)
    (hpayee : ch.params.payee.compressed = true) :
    (amount + ch.sent + fee > ch.params.capacity →
      Channel.next_payment π ch amount fee =
        .err (.Payment (.ExceedsCapacity ch.params.capacity (amount + ch.sent + fee))))
    ∧ (amount + ch.sent + fee ≤ ch.params.capacity →
      Channel.next_payment π ch amount fee = .ok
        { unsigned_tx :=
            { version := 2, lock_time := 0
              input := [{ previous_output := ch.funding_outpoint, script_sig := []
                          sequence := sequenceMax, witness := [] }]
              output := [{ value := amount + ch.sent
                           script_pubkey := π.newP2wpkh (π.pubkeyHash ch.params.payee) },
                         { value := ch.params.capacity - (amount + ch.sent + fee)
                           script_pubkey := π.newP2wpkh (π.pubkeyHash ch.params.payer) }] }
          inputs := [{ witness_utxo := some ch.funding_utxo
                       witness_script := some ch.params.funding_script
                       psigs := [], final_script_witness := none }]
          outputs := [{ witness_script := none }, { witness_script := none }] }) := by
  constructor
  · intro h
    unfold Channel.next_payment
    rw [if_pos h]
  · intro h
    unfold Channel.next_payment
    rw [if_neg (by exact Nat.not_lt.mpr h)]
    simp [wpubkeyHash, hpayer, hpayee, Psbt.fromUnsignedTx, PsbtInput.empt]

/-- Witness for C6, instantiating the spec's two worked examples:
capacity 100,000,000 and `sent = 0`, `amount = 1000`, `fee = 1000` gives
payee output 1,000 and change 99,998,000; then with `sent = 1000`,
`amount = 4000`, `fee = 1000` gives payee output 5,000 and change
99,994,000. -/
theorem c6_witness :
    Channel.next_payment cPrims cChannel 1000 1000 = .ok
      { unsigned_tx :=
          { version := 2, lock_time := 0
            input := [{ previous_output := cOutpoint, script_sig := []
                        sequence := sequenceMax, witness := [] }]
            output := [{ value := 1000, script_pubkey := cPrims.newP2wpkh 2 },
                       { value := 99998000, script_pubkey := cPrims.newP2wpkh 1 }] }
        inputs := [{ witness_utxo := some cChannel.funding_utxo
                     witness_script := some cParams.funding_script
                     psigs := [], final_script_witness := none }]
        outputs := [{ witness_script := none }, { witness_script := none }] }
    ∧ Channel.next_payment cPrims { cChannel with sent := 1000 } 4000 1000 = .ok
      { unsigned_tx :=
          { version := 2, lock_time := 0
            input := [{ previous_output := cOutpoint, script_sig := []
                        sequence := sequenceMax, witness := [] }]
            output := [{ value := 5000, script_pubkey := cPrims.newP2wpkh 2 },
                       { value := 99994000, script_pubkey := cPrims.newP2wpkh 1 }] }
        inputs := [{ witness_utxo := some cChannel.funding_utxo
                     witness_script := some cParams.funding_script
                     psigs := [], final_script_witness := none }]
        outputs := [{ witness_script := none }, { witness_script := none }] } := by
  constructor
  · exact ((c6_next_payment cPrims cChannel 1000 1000 rfl rfl).2 (by decide)).trans (by decide)
  · exact ((c6_next_payment cPrims { cChannel with sent := 1000 } 4000 1000 rfl rfl).2
      (by decide)).trans (by decide)

/-- Claim C7. `ChannelParams::new` rejects, in order: zero capacity
(`InvalidCapacity`), any uncompressed key (`UncompressedPublicKey`), and
a refund locktime equal to the zero value under any of the three timelock
encodings — raw `Sequence::ZERO`, `Sequence::from_height(0)` and
`Sequence::from_512_second_intervals(0)` — with `InvalidRefundLocktime`;
otherwise it succeeds and stores the derived spending script. The final
conjunct records the raw values of the three disabled-timelock encodings
(the first two coincide; both distinct raw values are rejected). -/
theorem c7_params_construction (π : Primitives) (payer payee : PubKey)
    (capacity : Amount) (refund_locktime : Nat) :
    (capacity = 0 →
      ChannelParams.new π payer payee capacity refund_locktime =
        .err (.Config .InvalidCapacity))
    ∧ (capacity ≠ 0 → ¬(payer.compressed = true ∧ payee.compressed = true) →
      ChannelParams.new π payer payee capacity refund_locktime =
        .err (.Config .UncompressedPublicKey))
    ∧ (capacity ≠ 0 → payer.compressed = true → payee.compressed = true →
      (refund_locktime = sequenceZero ∨ refund_locktime = sequenceFromHeight 0 ∨
        refund_locktime = sequenceFrom512SecondIntervals 0) →
      ChannelParams.new π payer payee capacity refund_locktime =
        .err (.Config .InvalidRefundLocktime))
    ∧ (capacity ≠ 0 → payer.compressed = true → payee.compressed = true →
      refund_locktime ≠ sequenceZero → refund_locktime ≠ sequenceFromHeight 0 →
      refund_locktime ≠ sequenceFrom512SecondIntervals 0 →
      ChannelParams.new π payer payee capacity refund_locktime =
        .ok { payer := payer, payee := payee, capacity := capacity
              funding_script := π.buildFundingScript payer payee refund_locktime
              refund_locktime := refund_locktime })
    ∧ (sequenceZero = 0 ∧ sequenceFromHeight 0 = 0
        ∧ sequenceFrom512SecondIntervals 0 = 4194304) := by
  refine ⟨?_, ?_, ?_, ?_, by decide, by decide, by decide⟩
  · intro h
    unfold ChannelParams.new
    rw [if_pos h]
  · intro h1 h2
    unfold ChannelParams.new
    rw [if_neg h1, if_pos (by cases hp : payer.compressed <;> cases hq : payee.compressed <;> simp_all)]
  · intro h1 h2 h3 h4
    unfold ChannelParams.new
    rw [if_neg h1, if_neg (by simp [h2, h3]), if_pos h4]
  · intro h1 h2 h3 h4 h5 h6
    unfold ChannelParams.new
    rw [if_neg h1, if_neg (by simp [h2, h3]),
      if_neg (by rintro (h | h | h); exacts [h4 h, h5 h, h6 h])]

/-- Witness for C7: a zero locktime in the 512-second encoding (raw value
4194304) is rejected even though it differs from raw zero, and the
concrete parameters `cParams` are accepted. -/
theorem c7_witness :
    ChannelParams.new cPrims cPayer cPayee 100000000 4194304 =
      .err (.Config .InvalidRefundLocktime)
    ∧ ChannelParams.new cPrims cPayer cPayee 100000000 10 = .ok cParams := by
  constructor
  · exact (c7_params_construction cPrims cPayer cPayee 100000000 4194304).2.2.1
      (by decide) rfl rfl (by decide)
  · exact (c7_params_construction cPrims cPayer cPayee 100000000 10).2.2.2.1
      (by decide) rfl rfl (by decide) (by decide) (by decide)


/-- Claim C8. On a PSBT with at least one input: `finalize_payment_tx`
sets the final witness of input 0 to exactly the 5 byte-strings
[empty push, payer DER signature with the sighash byte appended, payee
DER signature with the sighash byte appended, the single byte 1, the
spending-script bytes], `finalize_refund_tx` to exactly the 3
byte-strings [payer DER signature with the sighash byte appended, the
single byte 0, the spending-script bytes]; each fails with
`MissingSignature` naming the absent key, or `MissingWitnessScript` when
the script is absent, and each clears the stored partial signatures
(`psigs := []`). -/
theorem c8_finalize_witness_stacks (π : Primitives) (ch : Channel) (psbt : Psbt)
    (input : PsbtInput) (rest : List PsbtInput) (h : psbt.inputs = input :: rest) :
    (∀ sp se ws, input.psigs.lookup ch.params.payer = some sp →
      input.psigs.lookup ch.params.payee = some se →
      input.witness_script = some ws →
      Channel.finalize_payment_tx π ch psbt = .ok { psbt with
        inputs := { input with
          final_script_witness := some [[],
            π.serializeDer sp.signature ++ [sp.sighash_type.toU32 % 256],
            π.serializeDer se.signature ++ [se.sighash_type.toU32 % 256],
            [1], ws]
          psigs := [] } :: rest })
    ∧ (input.psigs.lookup ch.params.payer = none →
      Channel.finalize_payment_tx π ch psbt =
        .err (.Finalize (.MissingSignature ch.params.payer)))
    ∧ (∀ sp, input.psigs.lookup ch.params.payer = some sp →
      input.psigs.lookup ch.params.payee = none →
      Channel.finalize_payment_tx π ch psbt =
        .err (.Finalize (.MissingSignature ch.params.payee)))
    ∧ (∀ sp se, input.psigs.lookup ch.params.payer = some sp →
      input.psigs.lookup ch.params.payee = some se →
      input.witness_script = none →
      Channel.finalize_payment_tx π ch psbt = .err (.Finalize .MissingWitnessScript))
    ∧ (∀ sp ws, input.psigs.lookup ch.params.payer = some sp →
      input.witness_script = some ws →
      Channel.finalize_refund_tx π ch psbt = .ok { psbt with
        inputs := { input with
          final_script_witness := some [
            π.serializeDer sp.signature ++ [sp.sighash_type.toU32 % 256],
            [0], ws]
          psigs := [] } :: rest })
    ∧ (input.psigs.lookup ch.params.payer = none →
      Channel.finalize_refund_tx π ch psbt =
        .err (.Finalize (.MissingSignature ch.params.payer)))
    ∧ (∀ sp, input.psigs.lookup ch.params.payer = some sp →
      input.witness_script = none →
      Channel.finalize_refund_tx π ch psbt = .err (.Finalize .MissingWitnessScript)) := by
  unfold Channel.finalize_payment_tx Channel.finalize_refund_tx
  rw [h]
  refine ⟨fun sp se ws h1 h2 h3 => ?_, fun h1 => ?_, fun sp h1 h2 => ?_,
    fun sp se h1 h2 h3 => ?_, fun sp ws h1 h2 => ?_, fun h1 => ?_, fun sp h1 h2 => ?_⟩
  · simp [h1, h2, h3]
  · simp [h1]
  · simp [h1, h2]
  · simp [h1, h2, h3]
  · simp [h1, h2]
  · simp [h1]
  · simp [h1, h2]

/-- A concrete payment PSBT carrying both partial signatures and the
witness script, for the finalization witnesses. -/
def cSigPsbt : Psbt :=
  { unsigned_tx :=
      { version := 2, lock_time := 0
        input := [{ previous_output := cOutpoint, script_sig := []
                    sequence := sequenceMax, witness := [] }]
        output := [{ value := 5, script_pubkey := cPrims.newP2wpkh 2 },
                   { value := 99999995, script_pubkey := cPrims.newP2wpkh 1 }] }
    inputs := [{ witness_utxo := some cChannel.funding_utxo
                 witness_script := some cParams.funding_script
                 psigs := [(cPayer, { signature := 111, sighash_type := .all }),
                           (cPayee, { signature := 222, sighash_type := .all })]
                 final_script_witness := none }]
    outputs := [{ witness_script := none }, { witness_script := none }] }

/-- Witness for C8 at `cSigPsbt` (DER bytes under `cPrims` are
`[48, sig]`; the sighash byte of SIGHASH_ALL is 1): the payment witness
stack is the 5 byte-strings ending in `[1]` then the script bytes, the
refund stack the 3 byte-strings ending in `[0]` then the script bytes,
and both finalizers clear the stored signatures. -/
theorem c8_witness :
    Channel.finalize_payment_tx cPrims cChannel cSigPsbt = .ok { cSigPsbt with
      inputs := [{ witness_utxo := some cChannel.funding_utxo
                   witness_script := some cParams.funding_script
                   psigs := []
                   final_script_witness := some [[], [48, 111, 1], [48, 222, 1], [1],
                     cParams.funding_script] }] }
    ∧ Channel.finalize_refund_tx cPrims cChannel cSigPsbt = .ok { cSigPsbt with
      inputs := [{ witness_utxo := some cChannel.funding_utxo
                   witness_script := some cParams.funding_script
                   psigs := []
                   final_script_witness := some [[48, 111, 1], [0],
                     cParams.funding_script] }] } := by
  have h := c8_finalize_witness_stacks cPrims cChannel cSigPsbt
    { witness_utxo := some cChannel.funding_utxo
      witness_script := some cParams.funding_script
      psigs := [(cPayer, { signature := 111, sighash_type := .all }),
                (cPayee, { signature := 222, sighash_type := .all })]
      final_script_witness := none } [] rfl
  constructor
  · exact (h.1 { signature := 111, sighash_type := .all }
      { signature := 222, sighash_type := .all } cParams.funding_script
      (by decide) (by decide) rfl).trans (by decide)
  · exact (h.2.2.2.2.1 { signature := 111, sighash_type := .all } cParams.funding_script
      (by decide) rfl).trans (by decide)


/-! ### Equivalence of the flat lib.rs snapshot with the channel module
(for claim C10) -/

theorem flat_new_eq (π : Primitives) (payer payee : PubKey) (capacity : Amount)
    (locktime : Nat) :
    Flat.ChannelParams.new π payer payee capacity locktime
      = mapErrResult flattenError (ChannelParams.new π payer payee capacity locktime) := by
  unfold Flat.ChannelParams.new ChannelParams.new
  repeat' split <;> try rfl

theorem flat_verify_funding_eq (π : Primitives) (cp : ChannelParams) (tx : Transaction)
    (o : OutPoint) :
    Flat.ChannelParams.verify_funding_tx π cp tx o
      = mapErrResult flattenError (ChannelParams.verify_funding_tx π cp tx o) := by
  unfold Flat.ChannelParams.verify_funding_tx ChannelParams.verify_funding_tx
  repeat' split <;> try rfl

theorem flat_next_payment_eq (π : Primitives) (ch : Channel) (amount fee : Amount) :
    Flat.Channel.next_payment π ch amount fee
      = mapErrResult flattenError (Channel.next_payment π ch amount fee) := by
  unfold Flat.Channel.next_payment Channel.next_payment
  repeat' split <;> try rfl

theorem flat_verify_payment_eq (π : Primitives) (ch : Channel) (psbt : Psbt) :
    Flat.Channel.verify_payment_psbt π ch psbt
      = mapErrResult flattenError (Channel.verify_payment_psbt π ch psbt) := by
  unfold Flat.Channel.verify_payment_psbt Channel.verify_payment_psbt
  by_cases h1 : psbt.inputs.length > 1
  · simp only [if_pos h1]; rfl
  simp only [if_neg h1]
  rcases h2 : psbt.unsigned_tx.input.head? with _ | txin0 <;> simp only [h2]
  · rfl
  by_cases h3 : txin0.previous_output ≠ ch.funding_outpoint
  · simp only [if_pos h3]; rfl
  simp only [if_neg h3]
  rcases h4 : psbt.inputs.head? with _ | pin0 <;> simp only [h4]
  · rfl
  rcases h5 : pin0.witness_utxo with _ | wutxo <;> simp only [h5]
  · rfl
  by_cases h6 : wutxo ≠ ch.funding_utxo
  · simp only [if_pos h6]; rfl
  simp only [if_neg h6]
  rcases h7 : pin0.witness_script with _ | wscript <;> simp only [h7]
  · rfl
  by_cases h8 : wscript ≠ ch.params.funding_script
  · simp only [if_pos h8]; rfl
  simp only [if_neg h8]
  by_cases h9 : txin0.sequence ≠ sequenceMax
  · simp only [if_pos h9]; rfl
  simp only [if_neg h9]
  by_cases h10 : psbt.unsigned_tx.lock_time ≠ 0
  · simp only [if_pos h10]; rfl
  simp only [if_neg h10]
  rcases h11 : wpubkeyHash π ch.params.payee with _ | payeeHash <;> simp only [h11]
  · rfl
  rcases h12 : psbt.unsigned_tx.output.find?
      (fun o => o.script_pubkey = π.newP2wpkh payeeHash) with _ | payeeOut <;> simp only [h12]
  · rfl
  by_cases h13 : payeeOut.value ≤ ch.sent
  · simp only [if_pos h13]; rfl
  simp only [if_neg h13]
  by_cases h14 : (psbt.unsigned_tx.output.map TxOut.value).sum > ch.params.capacity
  · simp only [if_pos h14]; rfl
  simp only [if_neg h14]
  rcases h15 : pin0.psigs.lookup ch.params.payer with _ | sig <;> simp only [h15]
  · rfl
  by_cases h16 : sig.sighash_type ≠ SighashType.all ∧
      sig.sighash_type = SighashType.allPlusAnyoneCanPay
  · simp only [if_pos h16]; rfl
  simp only [if_neg h16]
  by_cases h17 : (!π.verifyEcdsa (π.p2wshSignatureHash psbt.unsigned_tx wscript
      ch.params.capacity sig.sighash_type) sig.signature ch.params.payer.inner) = true
  · simp only [if_pos h17]; rfl
  simp only [if_neg h17]
  rfl

theorem flat_apply_payment_eq (π : Primitives) (ch : Channel) (psbt : Psbt) :
    Flat.Channel.apply_payment π ch psbt =
      ((Channel.apply_payment π ch psbt).1,
        mapErrResult flattenError (Channel.apply_payment π ch psbt).2) := by
  unfold Flat.Channel.apply_payment Channel.apply_payment
  rw [flat_verify_payment_eq]
  cases Channel.verify_payment_psbt π ch psbt <;> rfl

theorem flat_finalize_payment_eq (π : Primitives) (ch : Channel) (psbt : Psbt) :
    Flat.Channel.finalize_payment_tx π ch psbt
      = mapErrResult flattenError (Channel.finalize_payment_tx π ch psbt) := by
  unfold Flat.Channel.finalize_payment_tx Channel.finalize_payment_tx
  repeat' split <;> try rfl

theorem flat_finalize_refund_eq (π : Primitives) (ch : Channel) (psbt : Psbt) :
    Flat.Channel.finalize_refund_tx π ch psbt
      = mapErrResult flattenError (Channel.finalize_refund_tx π ch psbt) := by
  unfold Flat.Channel.finalize_refund_tx Channel.finalize_refund_tx
  repeat' split <;> try rfl

/-- Claim C10. Every public operation of the historical flat snapshot in
src/lib.rs returns the same result and produces the same state as the
corresponding operation of the channel module, up to `flattenError`, the
renaming of error variants from the grouped taxonomy to the flat one
(e.g. `Payment(PaymentNotIncremental)` becomes `PaymentInvalidValue`).
In particular the two payment verifiers — and hence their
sighash-acceptance conditions — agree exactly. -/
theorem c10_flat_snapshot_equivalence (π : Primitives) (payer payee : PubKey)
    (capacity locktime amount fee : Nat) (cp : ChannelParams) (ch : Channel)
    (tx : Transaction) (outpoint : OutPoint) (psbt : Psbt) :
    Flat.ChannelParams.new π payer payee capacity locktime
      = mapErrResult flattenError (ChannelParams.new π payer payee capacity locktime)
    ∧ Flat.ChannelParams.funding_psbt π cp = ChannelParams.funding_psbt π cp
    ∧ Flat.ChannelParams.verify_funding_tx π cp tx outpoint
      = mapErrResult flattenError (ChannelParams.verify_funding_tx π cp tx outpoint)
    ∧ Flat.Channel.next_payment π ch amount fee
      = mapErrResult flattenError (Channel.next_payment π ch amount fee)
    ∧ Flat.Channel.verify_payment_psbt π ch psbt
      = mapErrResult flattenError (Channel.verify_payment_psbt π ch psbt)
    ∧ Flat.Channel.apply_payment π ch psbt =
      ((Channel.apply_payment π ch psbt).1,
        mapErrResult flattenError (Channel.apply_payment π ch psbt).2)
    ∧ Flat.Channel.refund_psbt π ch = Channel.refund_psbt π ch
    ∧ Flat.Channel.finalize_payment_tx π ch psbt
      = mapErrResult flattenError (Channel.finalize_payment_tx π ch psbt)
    ∧ Flat.Channel.finalize_refund_tx π ch psbt
      = mapErrResult flattenError (Channel.finalize_refund_tx π ch psbt) :=
  ⟨flat_new_eq π payer payee capacity locktime, rfl,
    flat_verify_funding_eq π cp tx outpoint,
    flat_next_payment_eq π ch amount fee,
    flat_verify_payment_eq π ch psbt,
    flat_apply_payment_eq π ch psbt, rfl,
    flat_finalize_payment_eq π ch psbt,
    flat_finalize_refund_eq π ch psbt⟩

end Spill
